import Mathlib

/-!
Verification development for the cost-abroad pipeline: fetch, filter and
combine of cost-of-living price datasets.  The repository source under
scrutiny provides the entry point run.py; the create, filters and combine
modules are modelled from the specification, with concrete behaviour
(message texts, label strings, one-decimal rounding of the overall mean)
pinned by the test suite of the repository.
-/

namespace CostAbroad

/-- Substring test helper: does the pattern occur at the head of the list? -/
def startsWithL : List Char → List Char → Bool
  | [], _ => true
  | _ :: _, [] => false
  | p :: ps, c :: cs => p == c && startsWithL ps cs

/-- Substring test helper: does the pattern occur anywhere in the list? -/
def hasSubL (pat : List Char) : List Char → Bool
  | [] => pat.isEmpty
  | c :: cs => startsWithL pat (c :: cs) || hasSubL pat cs

/-- Substring test on strings, used to model the Python membership operator on strings. -/
def strHasSub (pat s : String) : Bool := hasSubL pat.data s.data

/-- Modelled from the spec: the display label Eurostat uses for historical
Germany, rewritten by the missing filters module (exact text taken from the
repository test test_filter_tidy_frg). -/
def frg_label : String := "Germany (until 1990 former territory of the FRG)"

/-- Modelled from the spec: the display label Eurostat uses for the
candidate-country aggregate, rewritten by the missing filters module (exact
text taken from the repository test test_filter_tidy_candidate). -/
def candidate_label : String :=
  "Candidate and potential candidate countries except Turkey and Kosovo (under United Nations Security Council Resolution 1244/99)"

/-- Modelled from the spec: the label-normalization table of the missing
filters module.  The historical-Germany label maps to Germany, the
candidate-country aggregate label maps to Exclude, every other label passes
through unchanged. -/
def tidy_countries (l : String) : String :=
  if l = frg_label then "Germany"
  else if l = candidate_label then "Exclude"
  else l

/-- Modelled from the spec: the geo category object of the raw JSON payload,
holding a mapping from country code to positional index and a mapping from
country code to display label. -/
structure GeoCategory where
  index : List (String × Nat)
  label : List (String × String)
deriving Repr, DecidableEq

/-- Modelled from the spec: the raw JSON payload, holding parallel arrays: a
mapping from positional index to numeric value, and the geo category
mappings.  Numeric values are modelled as rationals. -/
structure RawPayload where
  value : List (Nat × ℚ)
  geo : GeoCategory
deriving Repr, DecidableEq

/-- Country code whose positional index is i, empty when no entry exists. -/
def codeAt (g : GeoCategory) (i : Nat) : String :=
  ((g.index.find? (fun e => e.2 == i)).map Prod.fst).getD ""

/-- Modelled from the spec: filter_prices of the missing filters module.
Produces the ordered sequence of (display label, value) pairs, one pair per
positional index, ordered by positional index ascending, with labels put
through tidy_countries. -/
def filter_prices (p : RawPayload) : List (String × ℚ) :=
  (List.range p.geo.index.length).map (fun i =>
    (tidy_countries ((p.geo.label.lookup (codeAt p.geo i)).getD ""),
     (p.value.lookup i).getD 0))

/-- Rounding to one decimal place, as Python round(x, 1); ties are not hit
by any statement below, so the tie-breaking direction is immaterial. -/
def round1 (q : ℚ) : ℚ := (⌊10 * q + 1 / 2⌋ : ℚ) / 10

/-- Evaluation rule for round1 at concrete rationals. -/
lemma round1_eq (q : ℚ) (z : ℤ) (h1 : (z : ℚ) ≤ 10 * q + 1 / 2)
    (h2 : 10 * q + 1 / 2 < z + 1) : round1 q = (z : ℚ) / 10 := by
  unfold round1
  rw [Int.floor_eq_iff.mpr ⟨h1, h2⟩]

/-- Value at position i of a persisted dataset, 0 when out of range. -/
def valueAt (d : List (String × ℚ)) (i : Nat) : ℚ :=
  ((d[i]?).map Prod.snd).getD 0

/-- Modelled from the spec: the overall dataset computed by the missing
combine module.  Country names are taken positionally from the first loaded
dataset; each value is the equal-weighted arithmetic mean of the values at
that position across all loaded datasets, rounded to one decimal place (the
rounding is pinned by test_create_combined_file_all_cats). -/
def overall_values (ds : List (List (String × ℚ))) : List (String × ℚ) :=
  match ds with
  | [] => []
  | d0 :: rest =>
    (List.range d0.length).map (fun i =>
      (((d0[i]?).map Prod.fst).getD "",
       round1 ((((d0 :: rest).map (fun d => valueAt d i)).sum) /
         (((d0 :: rest).length : ℚ)))))

/-- Modelled from the spec: create_combined_file of the missing combine
module.  File loading is elided: the function takes the list of
(category, loaded dataset) pairs in keyword order and returns the combined
mapping, every per-category dataset followed by the synthetic overall
entry. -/
def create_combined_file (cats : List (String × List (String × ℚ))) :
    List (String × List (String × ℚ)) :=
  cats ++ [("overall", overall_values (cats.map Prod.snd))]

/-- Modelled from the spec: the fixed Eurostat endpoint queried by the
missing create module (URL pinned by the repository test file). -/
def price_url : String :=
  "http://ec.europa.eu/eurostat/wdds/rest/data/v2.1/json/en/prc_ppp_ind"

/-- Modelled from the spec: the fixed query parameters of the GET request
issued by prices_raw, with the category code as the ppp_cat parameter. -/
def price_params (code : String) : List (String × String) :=
  [("na_item", "PLI_EU28"), ("lastTimePeriod", "1"), ("precision", "1"),
   ("ppp_cat", code)]

/-- Outcome of the HTTP GET as seen by prices_raw: either a transport-level
connection error or a response with a status code and a body. -/
inductive FetchOutcome where
  | connectionError : FetchOutcome
  | response (status : Nat) (body : String) : FetchOutcome
deriving Repr, DecidableEq

/-- Modelled from the spec: the console message printed when the endpoint
reports an empty dataset; the repository test pins that it contains the
words invalid category. -/
def invalid_category_msg : String :=
  "Sorry, it looks like you entered an invalid category code"

/-- Modelled from the spec: the console message printed on a server-side
HTTP error; the repository test pins that it contains the status code
followed by the word outside. -/
def server_error_msg (status : Nat) : String :=
  "Error " ++ toString status ++ " outside of your control - please try again later"

/-- Modelled from the spec: prices_raw of the missing create module.  The
HTTP exchange is elided: the function receives the outcome of the GET and
returns the parsed body together with the list of console messages printed.
A connection error is silently absorbed yielding the absence value; a 2xx
response yields the body; a non-2xx response whose body signals that the
dataset holds no data prints the invalid-category message; any other
non-2xx response prints the server-error message.  No exception escapes:
the function is total. -/
def prices_raw (code : String) (out : FetchOutcome) : Option String × List String :=
  match out with
  | FetchOutcome.connectionError => (none, [])
  | FetchOutcome.response status body =>
    if 200 ≤ status ∧ status < 300 then (some body, [])
    else if strHasSub "no data" body then (none, [invalid_category_msg])
    else (none, [server_error_msg status])

/-- Calls recorded by the run entry point, in order. -/
inductive PipelineCall where
  | createPriceFiles (kwargs : List (String × String)) : PipelineCall
  | createCombinedFile (kwargs : List (String × String)) : PipelineCall
deriving Repr, DecidableEq

/-- Shallow embedding of run from run.py: it calls create_price_files and
then create_combined_file, handing both the same keyword arguments; the
embedding records the two calls in order. -/
def run (kwargs : List (String × String)) : List PipelineCall :=
  [PipelineCall.createPriceFiles kwargs, PipelineCall.createCombinedFile kwargs]

/-- The categories mapping of run.py, in source order. -/
def categories : List (String × String) :=
  [("restaurant_hotel", "A0111"), ("recreation", "A0109"),
   ("transport", "A0107"), ("alcohol", "A010201"), ("food", "A010101")]

/-- Per-category datasets used by the combine tests of the repository: food,
alcohol, transport, recreation, restaurant_hotel, in that order. -/
def cdata : List (List (String × ℚ)) :=
  [[("Malta", 389/5), ("Poland", 753/10)],
   [("Malta", 322/5), ("Poland", 691/10)],
   [("Malta", 251/5), ("Poland", 302/5)],
   [("Malta", 809/10), ("Poland", 493/10)],
   [("Malta", 621/10), ("Poland", 631/10)]]

/-- Raw payload used by the filter test of the repository without label
rewrites. -/
def snip : RawPayload :=
  { value := [(0, 389/5), (1, 633/5), (2, 753/10)],
    geo := { index := [("AL", 0), ("AT", 1), ("BA", 2)],
             label := [("AL", "Albania"), ("AT", "Austria"),
                       ("BA", "Bosnia and Herzegovina")] } }

/-- Appending on the left preserves the substring test. -/
lemma hasSubL_append_right (pat l2 : List Char) (l1 : List Char)
    (h : hasSubL pat l2 = true) : hasSubL pat (l1 ++ l2) = true := by
  induction l1 with
  | nil => simpa using h
  | cons c cs ih =>
    simp only [List.cons_append, hasSubL, Bool.or_eq_true]
    exact Or.inr ih

/-- Element lookup rule for overall_values below the length of the first
dataset. -/
lemma overall_values_getElem (d0 : List (String × ℚ))
    (rest : List (List (String × ℚ))) (i : Nat) (hi : i < d0.length) :
    (overall_values (d0 :: rest))[i]? =
      some ((((d0[i]?).map Prod.fst).getD ""),
        round1 ((((d0 :: rest).map (fun d => valueAt d i)).sum) /
          (((d0 :: rest).length : ℚ)))) := by
  simp [overall_values, List.getElem?_map, List.getElem?_range, hi]

/-- C3: for every raw JSON payload with N positional indices, filter_prices
returns a sequence of exactly N (display label, value) pairs, ordered by
position index ascending: the pair at output position i carries the value
keyed by positional index i. -/
theorem C3_filter_length_and_order (p : RawPayload)
    (hlen : p.value.length = p.geo.index.length) :
    (filter_prices p).length = p.value.length ∧
    ∀ i : Nat, i < p.value.length →
      ((filter_prices p)[i]?).map Prod.snd = some ((p.value.lookup i).getD 0) := by
  constructor
  · simp [filter_prices, hlen]
  · intro i hi
    rw [hlen] at hi
    simp [filter_prices, List.getElem?_map, List.getElem?_range, hi]

/-- Witness for C3 at the payload of the filter test of the repository. -/
theorem C3_witness :
    (filter_prices snip).length = snip.value.length ∧
    ((filter_prices snip)[1]?).map Prod.snd = some ((snip.value.lookup 1).getD 0) :=
  ⟨(C3_filter_length_and_order snip (by rfl)).1,
   (C3_filter_length_and_order snip (by rfl)).2 1 (by decide)⟩

/-- C4: the historical-Germany label maps to exactly Germany, the
candidate-country aggregate label maps to exactly Exclude, every other
label passes through unchanged, and filtering removes no entry from the
sequence. -/
theorem C4_label_normalization :
    tidy_countries frg_label = "Germany" ∧
    tidy_countries candidate_label = "Exclude" ∧
    (∀ l : String, l ≠ frg_label → l ≠ candidate_label → tidy_countries l = l) ∧
    (∀ p : RawPayload, (filter_prices p).length = p.geo.index.length) := by
  refine ⟨by simp [tidy_countries], ?_, ?_, ?_⟩
  · simp [tidy_countries, frg_label, candidate_label]
  · intro l h1 h2
    simp [tidy_countries, h1, h2]
  · intro p
    simp [filter_prices]

/-- Witness for C4 at a label matching neither rewrite pattern. -/
theorem C4_witness : tidy_countries "Albania" = "Albania" :=
  C4_label_normalization.2.2.1 "Albania" (by decide) (by decide)

/-- C6: on a transport-level connection error, prices_raw returns the
absence value, raises nothing (the embedding is total) and prints no
message, for every category code. -/
theorem C6_connection_error_silent (code : String) :
    prices_raw code FetchOutcome.connectionError = (none, []) := rfl

/-- C7: on an HTTP 400 response whose body signals that the dataset holds
no data, prices_raw prints a console message containing the words invalid
category and returns the absence value. -/
theorem C7_no_data_message (code body : String)
    (h : strHasSub "no data" body = true) :
    prices_raw code (FetchOutcome.response 400 body) =
      (none, [invalid_category_msg]) ∧
    strHasSub "invalid category" invalid_category_msg = true := by
  refine ⟨?_, by decide⟩
  simp [prices_raw, h]

/-- Witness for C7 at the body returned by Eurostat in the repository
test. -/
theorem C7_witness :
    prices_raw "invalidcodetest"
      (FetchOutcome.response 400 "\x7b\"error\": \"Dataset contains no data\"\x7d") =
      (none, [invalid_category_msg]) ∧
    strHasSub "invalid category" invalid_category_msg = true :=
  C7_no_data_message "invalidcodetest"
    "\x7b\"error\": \"Dataset contains no data\"\x7d" (by decide)

/-- C8: on a server-side HTTP error (5xx), prices_raw prints a single
console message indicating the failure is outside the control of the caller and
returns the absence value; no retry happens (the embedding consumes the
single outcome). -/
theorem C8_server_error_message (code body : String) (status : Nat)
    (h5 : 500 ≤ status) (hb : strHasSub "no data" body = false) :
    prices_raw code (FetchOutcome.response status body) =
      (none, [server_error_msg status]) ∧
    strHasSub "outside" (server_error_msg status) = true := by
  constructor
  · have h2xx : ¬(200 ≤ status ∧ status < 300) := by omega
    simp [prices_raw, h2xx, hb]
  · show hasSubL _ _ = true
    have hmsg : (server_error_msg status).data =
        ("Error " ++ toString status).data ++
          " outside of your control - please try again later".data := by
      simp [server_error_msg, String.data_append, List.append_assoc]
    simp only [strHasSub]
    rw [hmsg]
    exact hasSubL_append_right _ _ _ (by decide)

/-- Witness for C8 at status 500: the message also contains the text 500
outside, as the repository test asserts. -/
theorem C8_witness :
    (prices_raw "A010101" (FetchOutcome.response 500 "") =
      (none, [server_error_msg 500]) ∧
    strHasSub "outside" (server_error_msg 500) = true) ∧
    strHasSub "500 outside" (server_error_msg 500) = true :=
  ⟨C8_server_error_message "A010101" "" 500 (by decide) (by decide), by decide⟩

/-- C1 counterexample: at the five-category data of the repository tests the overall
value for Malta is 67.1 while the arithmetic mean of the five values at
that position is 67.08, so the overall value is not the arithmetic mean. -/
theorem C1_counterexample :
    ((overall_values cdata)[0]?).map Prod.snd = some (671/10) ∧
    (cdata.map (fun d => valueAt d 0)).sum / (cdata.length : ℚ) = 1677/25 ∧
    ((671 : ℚ)/10) ≠ 1677/25 := by
  have hr := round1_eq (1677/25) 671 (by norm_num) (by norm_num)
  norm_num at hr
  refine ⟨?_, ?_, by norm_num⟩
  · simp [cdata, overall_values, valueAt, List.range_succ]
    norm_num [hr]
  · simp [cdata, valueAt]
    norm_num

/-- C1 (amended): for every non-empty list of loaded category datasets, the
value at each position of the overall dataset equals the arithmetic mean of
the values at that position across all loaded datasets, rounded to one
decimal place. -/
theorem C1_overall_is_rounded_mean (d0 : List (String × ℚ))
    (rest : List (List (String × ℚ))) (i : Nat) (hi : i < d0.length) :
    ((overall_values (d0 :: rest))[i]?).map Prod.snd =
      some (round1 ((((d0 :: rest).map (fun d => valueAt d i)).sum) /
        (((d0 :: rest).length : ℚ)))) := by
  rw [overall_values_getElem d0 rest i hi]
  rfl

/-- Witness for C1 at the two-category data of the repository test. -/
theorem C1_witness :
    ((overall_values [[("Malta", (389:ℚ)/5), ("Poland", 753/10)],
                      [("Malta", 322/5), ("Poland", 691/10)]])[0]?).map Prod.snd =
      some (round1 ((([[("Malta", (389:ℚ)/5), ("Poland", 753/10)],
                       [("Malta", 322/5), ("Poland", 691/10)]].map
          (fun d => valueAt d 0)).sum) /
        (([[("Malta", (389:ℚ)/5), ("Poland", 753/10)],
           [("Malta", 322/5), ("Poland", 691/10)]].length : ℚ)))) :=
  C1_overall_is_rounded_mean [("Malta", (389:ℚ)/5), ("Poland", 753/10)]
    [[("Malta", 322/5), ("Poland", 691/10)]] 0 (by decide)

/-- C2 counterexample: with the single category food whose Malta value is
77.84, the overall Malta value is 77.8, so the overall dataset is not equal
value-for-value to the category dataset. -/
theorem C2_counterexample :
    create_combined_file [("food", [("Malta", 1946/25)])] =
      [("food", [("Malta", 1946/25)]), ("overall", [("Malta", 389/5)])] ∧
    ((389 : ℚ)/5) ≠ 1946/25 := by
  have hr := round1_eq (1946/25) 778 (by norm_num) (by norm_num)
  norm_num at hr
  refine ⟨?_, by norm_num⟩
  simp [create_combined_file, overall_values, valueAt, List.range_succ]
  norm_num [hr]

/-- C2 (amended): create_combined_file called with exactly one category
returns the dataset of that category together with an overall dataset equal to
it value-for-value, provided every value of the dataset is fixed by
rounding to one decimal place; in general the overall values are the
category values rounded to one decimal place. -/
theorem C2_single_category (c : String) (d : List (String × ℚ))
    (h : ∀ p ∈ d, round1 p.2 = p.2) :
    create_combined_file [(c, d)] = [(c, d), ("overall", d)] := by
  have hov : overall_values [d] = d := by
    apply List.ext_getElem?
    intro i
    by_cases hi : i < d.length
    · rw [show ([d] : List (List (String × ℚ))) = d :: [] from rfl,
        overall_values_getElem d [] i hi, List.getElem?_eq_getElem hi]
      have hm : d[i] ∈ d := List.getElem_mem hi
      have hval : valueAt d i = (d[i]).2 := by
        simp [valueAt, List.getElem?_eq_getElem hi]
      simp [hval, h d[i] hm, List.getElem?_eq_getElem hi]
    · push_neg at hi
      rw [List.getElem?_eq_none (by simpa [overall_values] using hi),
        List.getElem?_eq_none hi]
  simp [create_combined_file, hov]

/-- Witness for C2 at the food dataset of the repository test. -/
theorem C2_witness :
    create_combined_file [("food", [("Malta", (389:ℚ)/5), ("Poland", 753/10)])] =
      [("food", [("Malta", (389:ℚ)/5), ("Poland", 753/10)]),
       ("overall", [("Malta", (389:ℚ)/5), ("Poland", 753/10)])] :=
  C2_single_category "food" _ (by
    have h1 := round1_eq (389/5) 778 (by norm_num) (by norm_num)
    have h2 := round1_eq (753/10) 753 (by norm_num) (by norm_num)
    norm_num at h1 h2
    intro p hp
    simp only [List.mem_cons, List.not_mem_nil, or_false] at hp
    rcases hp with h | h <;> rw [h] <;> simpa using (by first | exact h1 | exact h2))

/-- C5: the country ordering of the overall dataset and membership equals that
of the first per-category dataset, and create_combined_file returns every
per-category dataset followed by the synthetic overall entry. -/
theorem C5_overall_countries (d0 : List (String × ℚ))
    (rest : List (List (String × ℚ))) :
    (overall_values (d0 :: rest)).map Prod.fst = d0.map Prod.fst ∧
    ∀ cats : List (String × List (String × ℚ)),
      create_combined_file cats =
        cats ++ [("overall", overall_values (cats.map Prod.snd))] := by
  refine ⟨?_, fun cats => rfl⟩
  apply List.ext_getElem?
  intro i
  by_cases hi : i < d0.length
  · rw [List.getElem?_map, List.getElem?_map,
      overall_values_getElem d0 rest i hi, List.getElem?_eq_getElem hi]
    simp [List.getElem?_eq_getElem hi]
  · push_neg at hi
    rw [List.getElem?_eq_none (by simpa [overall_values] using hi),
      List.getElem?_eq_none (by simpa using hi)]

/-- C10: each overall value is the arithmetic mean rounded to one decimal
place rather than the exact mean: the value at any position is round1 of
the mean, and at the five-category data of the repository tests the Malta mean 67.08
rounds to 67.1, which differs from the exact mean. -/
theorem C10_overall_rounding :
    (∀ (d0 : List (String × ℚ)) (rest : List (List (String × ℚ))) (i : Nat),
      i < d0.length →
      ((overall_values (d0 :: rest))[i]?).map Prod.snd =
        some (round1 ((((d0 :: rest).map (fun d => valueAt d i)).sum) /
          (((d0 :: rest).length : ℚ))))) ∧
    round1 (1677/25) = 671/10 ∧
    ((overall_values cdata)[0]?).map Prod.snd = some (round1 (1677/25)) ∧
    ((1677 : ℚ)/25) ≠ 671/10 := by
  have hr := round1_eq (1677/25) 671 (by norm_num) (by norm_num)
  norm_num at hr
  refine ⟨?_, hr, ?_, by norm_num⟩
  · intro d0 rest i hi
    rw [overall_values_getElem d0 rest i hi]
    rfl
  · rw [hr]
    simp [cdata, overall_values, valueAt, List.range_succ]
    norm_num [hr]

/-- Witness for C10 at position 1 (Poland) of the five-category data. -/
theorem C10_witness :
    ((overall_values cdata)[1]?).map Prod.snd =
      some (round1 (((cdata.map (fun d => valueAt d 1)).sum) /
        ((cdata.length : ℚ)))) :=
  C10_overall_rounding.1 [("Malta", (389:ℚ)/5), ("Poland", 753/10)]
    [[("Malta", 322/5), ("Poland", 691/10)],
     [("Malta", 251/5), ("Poland", 302/5)],
     [("Malta", 809/10), ("Poland", 493/10)],
     [("Malta", 621/10), ("Poland", 631/10)]] 1 (by decide)

/-- C9: run first invokes the Create stage and then the Combine stage,
passing the identical keyword arguments to both, in that order. -/
theorem C9_run_order (kwargs : List (String × String)) :
    run kwargs =
      [PipelineCall.createPriceFiles kwargs,
       PipelineCall.createCombinedFile kwargs] := rfl

end CostAbroad
